import Mathlib

/-!
# OandaRates — verification of the background update orchestrator

A shallow embedding, in Lean 4, of the core of the OandaRates desktop
terminal (the `Model` / `Presenter` slice of `src/model.py`,
`src/presenter.py` and the category tables of `src/config.py`), together
with theorems settling the behavioural claims about retries, persistence,
cancellation, UI-queue draining and instrument classification.

Conventions of the embedding:
* Python strings are Lean `String`s; character-level operations
  (`str.lower`, `str.replace`, `str.split`, substring tests) are modelled
  over `List Char`.
* The SQLite `rates` table (primary key `date`) is modelled as an
  association list `List (String × Payload)`; the primary-key constraint
  appears as the `StoreWF` invariant / the `ReachableStore` predicate.
* Exceptions are modelled with `Except`; an escaping Python exception is
  an `Except.error` outcome.
* Wall-clock effects (`time.sleep`) and network calls are recorded in
  traces: the retry helper returns its call count and the list of slept
  delays (as rationals), and the fetch path records store-level events
  (`dbWrite` / `dbRollback` / `cacheClear`) in order.
-/

namespace OandaRates

/-! ## Category tables (src/config.py, DEFAULT_CONFIG["categories"]) -/

/-- `config["categories"]["currencies"]` from `src/config.py`. -/
def currencies : List String :=
  ["usd", "eur", "jpy", "gbp", "aud", "cad", "chf", "nzd", "sgd", "hkd",
   "nok", "sek", "dkk", "mxn", "zar", "try", "cnh", "pln", "czk", "huf"]

/-- `config["categories"]["metals"]` from `src/config.py`. -/
def metals : List String := ["xau", "xag", "xpd", "xpt"]

/-- `config["categories"]["commodities"]` from `src/config.py`. -/
def commodities : List String :=
  ["wtico_usd", "brent_crude_oil", "nat_gas_usd", "corn_usd", "wheat_usd",
   "soybn_usd", "sugar_usd", "cocoa_usd", "coffee_usd"]

/-- `config["categories"]["indices"]` from `src/config.py`. -/
def indices : List String :=
  ["us30_usd", "us_30_usd", "spx500_usd", "us_spx_500", "nas100_usd",
   "us_nas_100", "us2000_usd", "us_2000", "uk100_gbp", "uk_100",
   "de40_eur", "de_30_eur", "de_40_eur", "eu50_eur", "eu_50_eur",
   "fr40_eur", "fr_40", "jp225_usd", "jp_225", "au200_aud", "au_200",
   "hk33_hkd", "hk_hsi", "cn50_usd", "cn_50", "sg30_sgd", "sg_30"]

/-- `config["categories"]["bonds"]` from `src/config.py`. -/
def bonds : List String :=
  ["de_10yr_bund", "us_2yr_tnote", "us_5yr_tnote", "us_10yr_tnote",
   "usb02y_usd", "usb05y_usd", "de10yb_eur"]

/-! ## Character-level string helpers (Python `str` operations) -/

/-- Python `s.lower().replace("/", "_")` over the characters of `s`
(`instrument.lower().replace("/", "_")` in `Model.categorize_instrument`). -/
def toKey (s : String) : List Char :=
  s.data.map fun c => if c = '/' then '_' else c.toLower

/-- Python `s.replace("/", "_")` over the characters of `s`
(applied to the category table entries in `Model.categorize_instrument`). -/
def replaceSlash (s : String) : List Char :=
  s.data.map fun c => if c = '/' then '_' else c

/-- Worker for `splitUnderscore`: accumulates the current field (reversed). -/
def splitUnderscoreGo : List Char → List Char → List (List Char)
  | [], acc => [acc.reverse]
  | c :: rest, acc =>
      if c = '_' then acc.reverse :: splitUnderscoreGo rest []
      else splitUnderscoreGo rest (c :: acc)

/-- Python `s.split("_")` (always returns at least one field). -/
def splitUnderscore (cs : List Char) : List (List Char) :=
  splitUnderscoreGo cs []

/-- Python's substring test `needle in haystack`. -/
def isSubstrOf (needle haystack : List Char) : Bool :=
  match haystack with
  | [] => needle.isEmpty
  | _ :: t => needle.isPrefixOf haystack || isSubstrOf needle t

/-! ## Instrument classification (`Model.categorize_instrument`, src/model.py) -/

/-- `Model.categorize_instrument` from `src/model.py`: lowercases the name,
replaces `/` with `_`, then tests Forex (both halves are currencies),
Metals (a metal code among the `_`-separated parts), Commodities / Indices /
Bonds (a table entry occurring as a substring), CFDs (`"_cfd"` substring),
falling through to `"Other"`. -/
def categorize_instrument (instrument : String) : String :=
  let instrument_lower := toKey instrument
  let parts := splitUnderscore instrument_lower
  if (match parts with
      | [p0, p1] =>
          currencies.contains (String.mk p0) && currencies.contains (String.mk p1)
      | _ => false) then
    "Forex"
  else if metals.any (fun m => parts.contains m.data) then
    "Metals"
  else if commodities.any (fun c => isSubstrOf (replaceSlash c) instrument_lower) then
    "Commodities"
  else if indices.any (fun i => isSubstrOf (replaceSlash i) instrument_lower) then
    "Indices"
  else if bonds.any (fun b => isSubstrOf (replaceSlash b) instrument_lower) then
    "Bonds"
  else if isSubstrOf "_cfd".data instrument_lower then
    "CFDs"
  else
    "Other"

/-! ## Retry with exponential backoff (`Model._retry_with_backoff`, src/model.py) -/

/-- Observable trace of one invocation of `Model._retry_with_backoff`:
the result (`none` = the loop body never ran and Python returned `None`;
`some (.ok a)` = `func()` returned `a`; `some (.error e)` = the last
transport error was re-raised), the number of calls made to `func`, and the
list of delays slept (in seconds), in order. -/
structure RetryTrace (ε α : Type) where
  result : Option (Except ε α)
  calls : Nat
  sleeps : List ℚ
  deriving Repr

/-- Worker for `retry_with_backoff`. `attempt` is the Python loop index,
`remaining = max_retries - attempt` the number of loop iterations left, and
`delay` the current backoff delay. One iteration calls `func attempt`; on a
transport error it either re-raises (last iteration, i.e. not
`attempt < max_retries - 1`) or sleeps `delay`, doubles it and retries. -/
def retryGo (func : Nat → Except ε α) : Nat → Nat → ℚ → RetryTrace ε α
  | _, 0, _ => ⟨none, 0, []⟩
  | attempt, r + 1, delay =>
      match func attempt with
      | .ok a => ⟨some (.ok a), 1, []⟩
      | .error e =>
          if r = 0 then ⟨some (.error e), 1, []⟩
          else
            let t := retryGo func (attempt + 1) r (delay * 2)
            ⟨t.result, t.calls + 1, delay :: t.sleeps⟩

/-- `Model._retry_with_backoff(func, max_retries, initial_delay)` from
`src/model.py`, as a trace. `func` is indexed by the attempt number so a
behaviour can be prescribed per call. -/
def retry_with_backoff (func : Nat → Except ε α) (max_retries : Nat := 3)
    (initial_delay : ℚ := 1) : RetryTrace ε α :=
  retryGo func 0 max_retries initial_delay

/-! ## The OANDA v20 response and the canonical payload (src/model.py) -/

/-- The `"financing"` sub-object of a v20 instrument. -/
structure Financing where
  longRate : Option String
  shortRate : Option String
  deriving Repr, DecidableEq

/-- One element of the v20 `"instruments"` array (the fields
`Model.fetch_and_save_rates` reads; `none` = key absent). -/
structure Instr where
  name : Option String
  quoteCurrency : Option String
  financing : Option Financing
  financingDaysOfWeek : Option String
  deriving Repr, DecidableEq

/-- The decoded v20 API response body; `instruments = none` models a JSON
object without the `"instruments"` key. -/
structure ApiResponse where
  instruments : Option (List Instr)
  deriving Repr, DecidableEq

/-- One entry of the transformed (old-format) `"financingRates"` list built
by `Model.fetch_and_save_rates`. -/
structure FinancingRate where
  instrument : Option String
  longRate : Option String
  shortRate : Option String
  currency : Option String
  days : Option String
  longCharge : Option String
  shortCharge : Option String
  units : Option String
  deriving Repr, DecidableEq

/-- The canonical payload `{"financingRates": [...]}`. -/
structure Payload where
  financingRates : List FinancingRate
  deriving Repr, DecidableEq

/-- The transformation loop of `Model.fetch_and_save_rates` (src/model.py):
keeps the instruments that carry a `"financing"` object and maps each to the
old-format entry; `days` comes from `financingDaysOfWeek`, and `longCharge`,
`shortCharge`, `units` are always `None` under v20. -/
def transform_response (instruments : List Instr) : Payload :=
  ⟨instruments.filterMap fun i =>
    match i.financing with
    | none => none
    | some f =>
        some { instrument := i.name
               longRate := f.longRate
               shortRate := f.shortRate
               currency := i.quoteCurrency
               days := i.financingDaysOfWeek
               longCharge := none
               shortCharge := none
               units := none }⟩

/-! ## The rate store (the `rates` table of src/model.py) -/

/-- The `rates` table as an association list of `(date, payload)` rows in
insertion order. The SQLite schema declares `date` as the primary key; that
constraint is the `StoreWF` invariant below. -/
abbrev Store := List (String × Payload)

/-- Number of rows whose `date` column equals `d`. -/
def countDate (s : Store) (d : String) : Nat :=
  (s.filter fun r => r.1 = d).length

/-- The rows whose `date` column equals `d`, in store order. -/
def rowsFor (s : Store) (d : String) : Store :=
  s.filter fun r => r.1 = d

/-- `existing.raw_data = raw_data_str`: replace the payload of the first row
with date `d` (the row returned by `.filter_by(date=today).first()`). -/
def updateFirst : Store → String → Payload → Store
  | [], _, _ => []
  | r :: rs, d, p => if r.1 = d then (d, p) :: rs else r :: updateFirst rs d p

/-- The save block of `Model.fetch_and_save_rates` (src/model.py lines
351-359), the `upsert_snapshot(date, payload)` write of the spec: if a row
for `d` exists, replace its payload, else append a new row. -/
def upsert_snapshot (s : Store) (d : String) (p : Payload) : Store :=
  if s.any (fun r => r.1 = d) then updateFirst s d p else s ++ [(d, p)]

/-- The primary-key invariant of the `rates` table: at most one row per date. -/
def StoreWF (s : Store) : Prop :=
  ∀ d, countDate s d ≤ 1

/-- Store states reachable by the code's only write path (`upsert_snapshot`)
from the freshly-created empty table. -/
inductive ReachableStore : Store → Prop
  | empty : ReachableStore []
  | upsert {s : Store} (d : String) (p : Payload) :
      ReachableStore s → ReachableStore (upsert_snapshot s d p)

/-! ## `Model.fetch_and_save_rates` (src/model.py) -/

/-- A network-level failure (`requests.exceptions.RequestException`). -/
structure TransportErr where
  code : Nat
  deriving Repr, DecidableEq

/-- The Python exceptions the embedded code can let escape. -/
inductive PyErr
  | valueError
  deriving Repr, DecidableEq

/-- Store-level events of one `fetch_and_save_rates` run, in order. -/
inductive StoreEvent
  | dbWrite (date : String) (payload : Payload)
  | dbRollback
  | cacheClear
  deriving Repr, DecidableEq

/-- Mutable fields of `Model` that the fetch path touches: the `rates`
table, the validity of the `get_instrument_history` lru cache, and the
configured credentials. -/
structure ModelState where
  store : Store
  cacheValid : Bool
  account_id : String
  api_key : String
  deriving Repr, DecidableEq

/-- Result of one `Model.fetch_and_save_rates` run: the returned value
(`.error` = an exception escaped, `.ok none` = Python returned `None`,
`.ok (some p)` = the transformed payload `p` was returned), the state after
the run, the number of network calls, the slept delays, and the store-level
events in order. -/
structure FetchResult where
  outcome : Except PyErr (Option Payload)
  state : ModelState
  apiCalls : Nat
  sleeps : List ℚ
  storeEvents : List StoreEvent
  deriving Repr

/-- `Model.fetch_and_save_rates(save_to_db)` from `src/model.py`.
`today` stands for `datetime.now().strftime("%Y-%m-%d")`; `api n` is the
outcome of the `n`-th network call (`_fetch_from_api`); `dbFail` is true
when the save block raises `SQLAlchemyError`.
The code raises `ValueError` when `account_id` or `api_key` is empty (that
check sits before the `try` block, so the outer `except` cannot catch it),
then fetches through `_retry_with_backoff` (defaults: 3 retries, 1.0s),
returns `None` when the response lacks `"instruments"` or when a caught
exception ends the run, transforms the response, and, when `save_to_db`,
upserts the row for `today` and clears the history cache after the commit;
a `SQLAlchemyError` rolls the session back and returns `None`. -/
def fetch_and_save_rates (st : ModelState) (today : String)
    (api : Nat → Except TransportErr ApiResponse) (dbFail : Bool)
    (save_to_db : Bool := true) : FetchResult :=
  if st.account_id = "" ∨ st.api_key = "" then
    ⟨.error .valueError, st, 0, [], []⟩
  else
    let t := retry_with_backoff api 3 1
    match t.result with
    | none => ⟨.ok none, st, t.calls, t.sleeps, []⟩
    | some (.error _) => ⟨.ok none, st, t.calls, t.sleeps, []⟩
    | some (.ok resp) =>
        match resp.instruments with
        | none => ⟨.ok none, st, t.calls, t.sleeps, []⟩
        | some instrs =>
            let payload := transform_response instrs
            if save_to_db then
              if dbFail then
                ⟨.ok none, st, t.calls, t.sleeps, [.dbRollback]⟩
              else
                ⟨.ok (some payload),
                 { st with store := upsert_snapshot st.store today payload
                           cacheValid := false },
                 t.calls, t.sleeps, [.dbWrite today payload, .cacheClear]⟩
            else
              ⟨.ok (some payload), st, t.calls, t.sleeps, []⟩

/-! ## The presenter's fetch job (`Presenter._fetch_job`, src/presenter.py) -/

/-- Messages put on `Presenter.ui_update_queue` (the `UIUpdate` dicts of
src/presenter.py, by `type`). -/
inductive UIMsg
  | status (text : String) ( is_error : Bool)
  | showProgress
  | hideProgress
  | setButtonsEnabled (enabled : Bool)
  | dataMsg (payload : Payload)
  | initialData (date : Option String) (payload : Payload)
  | updateTable (rows : List (List String))
  | clearInputs
  deriving Repr, DecidableEq

/-- Presenter-side state the fetch path touches: the model and the shared
`_cancellation_event`. -/
structure PresenterState where
  model : ModelState
  cancelFlag : Bool
  deriving Repr, DecidableEq

/-- Result of one `Presenter._fetch_job` run: whether the job body returned
or let an exception escape, the messages it put on the UI queue in order,
the state after the run, and the fetch traces. -/
structure JobResult where
  outcome : Except PyErr Unit
  msgs : List UIMsg
  state : PresenterState
  apiCalls : Nat
  sleeps : List ℚ
  storeEvents : List StoreEvent
  deriving Repr

/-- `Presenter._fetch_job(source, is_initial)` from `src/presenter.py`.
If the cancellation flag is set at entry the job clears it, posts the
`"Update cancelled."` error status plus `hide_progress` and
`set_buttons_enabled(True)`, and returns without touching the network.
Otherwise it posts the `"No local data. ..."` status when `is_initial`,
runs `fetch_and_save_rates` (`save_to_db=False` for `"manual"`, `True` for
`"scheduled"`/`"initial"`), posts the outcome status, `hide_progress`,
`set_buttons_enabled(True)`, and finally a `data` message when the fetch
returned a payload. An exception raised by `fetch_and_save_rates`
propagates out of the job body (there is no try/except in `_fetch_job`). -/
def fetch_job (ps : PresenterState) (source : String) ( is_initial : Bool)
    (today : String) (api : Nat → Except TransportErr ApiResponse)
    (dbFail : Bool) : JobResult :=
  if ps.cancelFlag then
    { outcome := .ok ()
      msgs := [.status "Update cancelled." true, .hideProgress,
               .setButtonsEnabled true]
      state := { ps with cancelFlag := false }
      apiCalls := 0, sleeps := [], storeEvents := [] }
  else
    let initMsgs : List UIMsg :=
      if is_initial then [.status "No local data. Fetching from API..." false]
      else []
    if source = "manual" then
      let r := fetch_and_save_rates ps.model today api dbFail false
      match r.outcome with
      | .error e =>
          { outcome := .error e, msgs := initMsgs
            state := { ps with model := r.state }
            apiCalls := r.apiCalls, sleeps := r.sleeps
            storeEvents := r.storeEvents }
      | .ok newData =>
          let statusMsg : UIMsg :=
            match newData with
            | some _ => .status "Manual update successful (not saved to DB)." false
            | none =>
                .status
                  "Manual update failed. Please try again or check API connectivity."
                  true
          let dataMsgs : List UIMsg :=
            match newData with
            | some p => [.dataMsg p]
            | none => []
          { outcome := .ok ()
            msgs := initMsgs ++ [statusMsg, .hideProgress, .setButtonsEnabled true]
                     ++ dataMsgs
            state := { ps with model := r.state }
            apiCalls := r.apiCalls, sleeps := r.sleeps
            storeEvents := r.storeEvents }
    else if source = "scheduled" ∨ source = "initial" then
      let r := fetch_and_save_rates ps.model today api dbFail true
      match r.outcome with
      | .error e =>
          { outcome := .error e, msgs := initMsgs
            state := { ps with model := r.state }
            apiCalls := r.apiCalls, sleeps := r.sleeps
            storeEvents := r.storeEvents }
      | .ok newData =>
          let statusMsg : UIMsg :=
            match newData with
            | some _ => .status "API fetch successful and saved to database." false
            | none => .status "API fetch failed. Please check API connectivity." true
          let dataMsgs : List UIMsg :=
            match newData with
            | some p => [.dataMsg p]
            | none => []
          { outcome := .ok ()
            msgs := initMsgs ++ [statusMsg, .hideProgress, .setButtonsEnabled true]
                     ++ dataMsgs
            state := { ps with model := r.state }
            apiCalls := r.apiCalls, sleeps := r.sleeps
            storeEvents := r.storeEvents }
    else
      { outcome := .ok (), msgs := initMsgs, state := ps
        apiCalls := 0, sleeps := [], storeEvents := [] }

/-- `Presenter.on_manual_update` from `src/presenter.py`: clears the shared
cancellation flag, posts `set_buttons_enabled(False)`, the `"Fetching new
data from API..."` status and `show_progress`, then submits
`_fetch_job("manual")` to the worker pool. Returns the state at submission
time and the messages posted by the handler itself. -/
def on_manual_update (ps : PresenterState) : PresenterState × List UIMsg :=
  ({ ps with cancelFlag := false },
   [.setButtonsEnabled false, .status "Fetching new data from API..." false,
    .showProgress])

/-! ## The dispatcher (`Presenter.process_ui_updates`, src/presenter.py) -/

/-- Dispatch-thread state the handlers mutate (`Presenter.raw_data`,
`Presenter.latest_date`). -/
structure DispState where
  raw_data : Option Payload
  latest_date : Option String
  deriving Repr, DecidableEq

/-- `Presenter._update_display` (src/presenter.py): with no cached data it
enqueues an empty `update_table` and returns; otherwise it enqueues the
filtered table and the `"Display updated. ..."` status. `display` stands
for `_filter_and_transform_rates` under the current filter settings (its
float formatting is outside this embedding, so it is a parameter). -/
def update_display_msgs (display : Payload → List (List String)) :
    Option Payload → List UIMsg
  | none => [.updateTable []]
  | some p =>
      [.updateTable (display p),
       .status ("Display updated. Showing " ++ toString (display p).length
                 ++ " instruments.") false]

/-- One iteration of the dispatch loop body of `Presenter.process_ui_updates`
applied to a dequeued message: the new dispatch state and the messages the
handler itself enqueues (`data` / `initial_data` enqueue `hide_progress`
and then the `_update_display` messages; every other handler only performs
a view side effect and enqueues nothing). -/
def handleMsg (display : Payload → List (List String)) (today : String)
    (ds : DispState) : UIMsg → DispState × List UIMsg
  | .dataMsg p =>
      let ds' : DispState := { raw_data := some p, latest_date := some today }
      (ds', .hideProgress :: update_display_msgs display ds'.raw_data)
  | .initialData d p =>
      let ds' : DispState := { raw_data := some p, latest_date := d }
      (ds', .hideProgress :: update_display_msgs display ds'.raw_data)
  | _ => (ds, [])

/-- Termination weight of a queued message: an upper bound (plus one) on
the weight of what its handler can enqueue. -/
def msgWeight : UIMsg → Nat
  | .dataMsg _ => 4
  | .initialData _ _ => 4
  | _ => 1

/-- Total weight of a queue. -/
def queueWeight (q : List UIMsg) : Nat :=
  (q.map msgWeight).sum

theorem queueWeight_append (a b : List UIMsg) :
    queueWeight (a ++ b) = queueWeight a + queueWeight b := by
  simp [queueWeight]

theorem queueWeight_cons (m : UIMsg) (q : List UIMsg) :
    queueWeight (m :: q) = msgWeight m + queueWeight q := by
  simp [queueWeight]

theorem handleMsg_emit_weight (display : Payload → List (List String))
    (today : String) (ds : DispState) (m : UIMsg) :
    queueWeight (handleMsg display today ds m).2 < msgWeight m := by
  cases m <;> simp [handleMsg, msgWeight, queueWeight, update_display_msgs]

/-- The drain loop of `Presenter.process_ui_updates` (src/presenter.py):
`while not empty: get_nowait(); handle` — a handled message's own enqueues
go to the back of the queue (`queue.put`) and are seen by the same loop.
Returns the dequeued-and-applied messages in order, and the final state. -/
def drainGo (display : Payload → List (List String)) (today : String) :
    List UIMsg → DispState → List UIMsg × DispState
  | [], ds => ([], ds)
  | m :: q, ds =>
      let r := handleMsg display today ds m
      let rest := drainGo display today (q ++ r.2) r.1
      (m :: rest.1, rest.2)
  termination_by q _ => queueWeight q
  decreasing_by
    simp only [queueWeight_append, queueWeight_cons]
    have := handleMsg_emit_weight display today ds m
    omega

/-- `Presenter.process_ui_updates` from `src/presenter.py`, on a queue
snapshot `q` with no concurrent producer: drains until empty, applying the
messages in FIFO order. -/
def process_ui_updates (display : Payload → List (List String))
    (today : String) (q : List UIMsg) (ds : DispState) :
    List UIMsg × DispState :=
  drainGo display today q ds

/-! ## Cancellation-flag events (src/presenter.py) -/

/-- The operations of `src/presenter.py` that can touch the shared
`_cancellation_event` between job submission and job start:
`on_cancel_update` and `shutdown` set it, `on_manual_update` clears it,
anything else leaves it alone. -/
inductive FlagEvent
  | cancelRequest
  | shutdownRequest
  | manualRequest
  | plainEvent
  deriving Repr, DecidableEq

/-- Effect of one event on the `_cancellation_event` flag. -/
def applyFlagEvent : Bool → FlagEvent → Bool
  | _, .cancelRequest => true
  | _, .shutdownRequest => true
  | _, .manualRequest => false
  | b, .plainEvent => b

/-- The flag after a sequence of events. -/
def runFlagEvents (b : Bool) (evs : List FlagEvent) : Bool :=
  evs.foldl applyFlagEvent b

/-! ## Store lemmas -/

theorem countDate_cons (r : String × Payload) (rs : Store) (d : String) :
    countDate (r :: rs) d = (if r.1 = d then 1 else 0) + countDate rs d := by
  by_cases h : r.1 = d <;> simp [countDate, List.filter_cons, h]
  omega

theorem countDate_append (a b : Store) (d : String) :
    countDate (a ++ b) d = countDate a d + countDate b d := by
  simp [countDate, List.filter_append]

theorem rowsFor_cons (r : String × Payload) (rs : Store) (d : String) :
    rowsFor (r :: rs) d =
      if r.1 = d then r :: rowsFor rs d else rowsFor rs d := by
  by_cases h : r.1 = d <;> simp [rowsFor, List.filter_cons, h]

theorem rowsFor_append (a b : Store) (d : String) :
    rowsFor (a ++ b) d = rowsFor a d ++ rowsFor b d := by
  simp [rowsFor, List.filter_append]

theorem countDate_eq_length_rowsFor (s : Store) (d : String) :
    countDate s d = (rowsFor s d).length := rfl

theorem countDate_eq_zero_of_any_false {s : Store} {d : String}
    (h : s.any (fun r => r.1 = d) = false) : countDate s d = 0 := by
  simp only [countDate, List.length_eq_zero, List.filter_eq_nil_iff]
  simp only [List.any_eq_false, decide_eq_true_eq] at h
  intro a ha
  simpa using h a ha

theorem rowsFor_eq_nil_of_countDate_zero {s : Store} {d : String}
    (h : countDate s d = 0) : rowsFor s d = [] := by
  rw [countDate_eq_length_rowsFor] at h
  exact List.eq_nil_of_length_eq_zero h

theorem countDate_updateFirst (s : Store) (d : String) (p : Payload)
    (d' : String) : countDate (updateFirst s d p) d' = countDate s d' := by
  induction s with
  | nil => rfl
  | cons r rs ih =>
      simp only [updateFirst]
      split
      · next h => rw [countDate_cons, countDate_cons, h]
      · rw [countDate_cons, countDate_cons, ih]

theorem rowsFor_updateFirst (s : Store) (d : String) (p : Payload)
    (hle : countDate s d ≤ 1) (hany : s.any (fun r => r.1 = d) = true) :
    rowsFor (updateFirst s d p) d = [(d, p)] := by
  induction s with
  | nil => simp at hany
  | cons r rs ih =>
      simp only [updateFirst]
      split
      · next h =>
        have hz : countDate rs d = 0 := by
          rw [countDate_cons, if_pos h] at hle
          omega
        rw [rowsFor_cons, if_pos rfl, rowsFor_eq_nil_of_countDate_zero hz]
      · next h =>
        have hany' : rs.any (fun r => r.1 = d) = true := by
          simp only [List.any_cons, Bool.or_eq_true, decide_eq_true_eq] at hany
          rcases hany with h' | h'
          · exact absurd h' h
          · exact h'
        have hle' : countDate rs d ≤ 1 := by
          rw [countDate_cons, if_neg h] at hle
          omega
        rw [rowsFor_cons, if_neg h]
        exact ih hle' hany'

theorem rowsFor_upsert (s : Store) (d : String) (p : Payload)
    (hle : countDate s d ≤ 1) :
    rowsFor (upsert_snapshot s d p) d = [(d, p)] := by
  unfold upsert_snapshot
  split
  · next hany => exact rowsFor_updateFirst s d p hle hany
  · next hany =>
    have h0 : countDate s d = 0 :=
      countDate_eq_zero_of_any_false (Bool.not_eq_true _ ▸ hany)
    rw [rowsFor_append, rowsFor_eq_nil_of_countDate_zero h0, rowsFor_cons]
    simp [rowsFor]

theorem storeWF_upsert (s : Store) (d : String) (p : Payload)
    (h : StoreWF s) : StoreWF (upsert_snapshot s d p) := by
  intro d'
  unfold upsert_snapshot
  split
  · rw [countDate_updateFirst]
    exact h d'
  · next hany =>
    rw [countDate_append]
    by_cases hd : d = d'
    · subst hd
      rw [countDate_eq_zero_of_any_false (Bool.not_eq_true _ ▸ hany)]
      simp [countDate, List.filter_cons]
    · have hz : countDate [(d, p)] d' = 0 := by
        simp [countDate, List.filter_cons, hd]
      rw [hz]
      have := h d'
      omega

theorem reachableStore_wf {s : Store} (h : ReachableStore s) : StoreWF s := by
  induction h with
  | empty => intro d; simp [countDate]
  | upsert d p _ ih => exact storeWF_upsert _ d p ih

/-! ## Fetch lemmas -/

theorem retryGo_first_ok (func : Nat → Except ε α) (attempt r : Nat)
    (delay : ℚ) (a : α) (h : func attempt = .ok a) :
    retryGo func attempt (r + 1) delay = ⟨some (.ok a), 1, []⟩ := by
  unfold retryGo
  rw [h]

theorem retry_first_ok (func : Nat → Except ε α) (a : α)
    (h : func 0 = .ok a) :
    retry_with_backoff func 3 1 = ⟨some (.ok a), 1, []⟩ := by
  unfold retry_with_backoff
  exact retryGo_first_ok func 0 2 1 a h

/-- With `save_to_db=False` (the manual path), `fetch_and_save_rates` never
touches the store or the cache, whatever its outcome. -/
theorem fetch_save_false_inv (st : ModelState) (today : String)
    (api : Nat → Except TransportErr ApiResponse) (dbFail : Bool) :
    (fetch_and_save_rates st today api dbFail false).state = st ∧
    (fetch_and_save_rates st today api dbFail false).storeEvents = [] := by
  unfold fetch_and_save_rates
  split
  · exact ⟨rfl, rfl⟩
  · rcases hres : (retry_with_backoff api 3 1).result with _ | res
    · simp [hres]
    · rcases res with e | resp
      · simp [hres]
      · rcases hi : resp.instruments with _ | instrs
        · simp [hres, hi]
        · simp [hres, hi]

/-- With configured (non-empty) credentials, `fetch_and_save_rates` returns
normally: no exception escapes it. -/
theorem fetch_ok_of_creds (st : ModelState) (today : String)
    (api : Nat → Except TransportErr ApiResponse) (dbFail save : Bool)
    (h1 : st.account_id ≠ "") (h2 : st.api_key ≠ "") :
    ∃ v, (fetch_and_save_rates st today api dbFail save).outcome = .ok v := by
  unfold fetch_and_save_rates
  rw [if_neg (by simp [h1, h2])]
  rcases hres : (retry_with_backoff api 3 1).result with _ | res
  · simp [hres]
  · rcases res with e | resp
    · simp [hres]
    · rcases hi : resp.instruments with _ | instrs
      · simp [hres, hi]
      · rcases save
        · simp [hres, hi]
        · rcases dbFail <;> simp [hres, hi]

/-! ## Claim theorems -/

/-- **C2**: if the underlying call always raises a transport error, the
retry helper with `max_retries=3, initial_delay=1.0` makes exactly 3 calls,
sleeps 1s then 2s (3s total, no sleep after the last attempt), and
re-raises the last transport error. -/
theorem retry_exhausted_trace {ε α : Type} (func : Nat → Except ε α)
    (errs : Nat → ε) (h : ∀ n, func n = .error (errs n)) :
    (retry_with_backoff func 3 1).calls = 3 ∧
    (retry_with_backoff func 3 1).sleeps = [1, 2] ∧
    (retry_with_backoff func 3 1).sleeps.sum = 3 ∧
    (retry_with_backoff func 3 1).result = some (.error (errs 2)) := by
  have hs : retry_with_backoff func 3 1 =
      ⟨some (.error (errs 2)), 3, [1, 1 * 2]⟩ := by
    unfold retry_with_backoff
    simp [retryGo, h 0, h 1, h 2]
  rw [hs]
  norm_num

theorem retry_exhausted_trace_witness :
    (retry_with_backoff (fun n => (.error ⟨n⟩ : Except TransportErr Unit)) 3 1).calls = 3 ∧
    (retry_with_backoff (fun n => (.error ⟨n⟩ : Except TransportErr Unit)) 3 1).sleeps = [1, 2] ∧
    (retry_with_backoff (fun n => (.error ⟨n⟩ : Except TransportErr Unit)) 3 1).sleeps.sum = 3 ∧
    (retry_with_backoff (fun n => (.error ⟨n⟩ : Except TransportErr Unit)) 3 1).result
      = some (.error ⟨2⟩) :=
  retry_exhausted_trace (fun n => (.error ⟨n⟩ : Except TransportErr Unit))
    (fun n => (⟨n⟩ : TransportErr)) (fun _ => rfl)

/-- **C3**: when the first response arrives but lacks the `"instruments"`
key, the fetch makes exactly one network call (no retry), returns `None`,
and leaves the store untouched. -/
theorem fetch_missing_key_single_call (st : ModelState) (today : String)
    (api : Nat → Except TransportErr ApiResponse) (dbFail save : Bool)
    (resp : ApiResponse) (h1 : st.account_id ≠ "") (h2 : st.api_key ≠ "")
    (h0 : api 0 = .ok resp) (hmiss : resp.instruments = none) :
    (fetch_and_save_rates st today api dbFail save).outcome = .ok none ∧
    (fetch_and_save_rates st today api dbFail save).apiCalls = 1 ∧
    (fetch_and_save_rates st today api dbFail save).sleeps = [] ∧
    (fetch_and_save_rates st today api dbFail save).state = st ∧
    (fetch_and_save_rates st today api dbFail save).storeEvents = [] := by
  have hcred : ¬(st.account_id = "" ∨ st.api_key = "") := by simp [h1, h2]
  have hr := retry_first_ok api resp h0
  refine ⟨?_, ?_, ?_, ?_, ?_⟩ <;>
    simp [fetch_and_save_rates, if_neg hcred, hr, hmiss]

theorem fetch_missing_key_single_call_witness :
    (fetch_and_save_rates ⟨[], true, "acct", "key"⟩ "2024-01-01"
      (fun _ => .ok ⟨none⟩) false true).outcome = .ok none ∧
    (fetch_and_save_rates ⟨[], true, "acct", "key"⟩ "2024-01-01"
      (fun _ => .ok ⟨none⟩) false true).apiCalls = 1 ∧
    (fetch_and_save_rates ⟨[], true, "acct", "key"⟩ "2024-01-01"
      (fun _ => .ok ⟨none⟩) false true).sleeps = [] ∧
    (fetch_and_save_rates ⟨[], true, "acct", "key"⟩ "2024-01-01"
      (fun _ => .ok ⟨none⟩) false true).state = ⟨[], true, "acct", "key"⟩ ∧
    (fetch_and_save_rates ⟨[], true, "acct", "key"⟩ "2024-01-01"
      (fun _ => .ok ⟨none⟩) false true).storeEvents = [] :=
  fetch_missing_key_single_call ⟨[], true, "acct", "key"⟩ "2024-01-01"
    (fun _ => .ok ⟨none⟩) false true ⟨none⟩ (by decide) (by decide) rfl rfl

/-- **C6**: on every reachable store the primary-key invariant holds (at
most one row per date), and `upsert_snapshot` is a true upsert: writing
`p1` then `p2` for the same date `d` leaves exactly the single row
`(d, p2)`. -/
theorem upsert_true_upsert (s : Store) (h : ReachableStore s) :
    (∀ d, countDate s d ≤ 1) ∧
    (∀ d p1 p2,
      rowsFor (upsert_snapshot (upsert_snapshot s d p1) d p2) d = [(d, p2)]) := by
  have hwf : StoreWF s := reachableStore_wf h
  refine ⟨hwf, fun d p1 p2 => ?_⟩
  have h1 : rowsFor (upsert_snapshot s d p1) d = [(d, p1)] :=
    rowsFor_upsert s d p1 (hwf d)
  have hle : countDate (upsert_snapshot s d p1) d ≤ 1 := by
    rw [countDate_eq_length_rowsFor, h1]
    simp
  exact rowsFor_upsert _ d p2 hle

theorem upsert_true_upsert_witness :
    countDate ([] : Store) "2024-01-01" ≤ 1 ∧
    rowsFor (upsert_snapshot (upsert_snapshot ([] : Store) "2024-01-01" ⟨[]⟩)
        "2024-01-01" ⟨[⟨some "EUR_USD", some "0.0083", some "-0.0133",
          some "USD", none, none, none, none⟩]⟩) "2024-01-01"
      = [("2024-01-01", ⟨[⟨some "EUR_USD", some "0.0083", some "-0.0133",
          some "USD", none, none, none, none⟩]⟩)] :=
  ⟨(upsert_true_upsert [] ReachableStore.empty).1 "2024-01-01",
   (upsert_true_upsert [] ReachableStore.empty).2 "2024-01-01" ⟨[]⟩
     ⟨[⟨some "EUR_USD", some "0.0083", some "-0.0133", some "USD",
        none, none, none, none⟩]⟩⟩

/-- **C4**: a successful scheduled or initial-fallback job leaves exactly
one row for today holding the fetched canonical payload and invalidates the
history cache; on a storage failure the store and cache are untouched and
no cache invalidation happens — the invalidation only follows a successful
write (the event trace is `[dbWrite, cacheClear]`). -/
theorem scheduled_job_persists_today (ps : PresenterState) (today : String)
    (api : Nat → Except TransportErr ApiResponse) (source : String)
    (isInit : Bool) (resp : ApiResponse) (instrs : List Instr)
    (hsrc : source = "scheduled" ∨ source = "initial")
    (hc : ps.cancelFlag = false)
    (h1 : ps.model.account_id ≠ "") (h2 : ps.model.api_key ≠ "")
    (hwf : countDate ps.model.store today ≤ 1)
    (hr : (retry_with_backoff api 3 1).result = some (.ok resp))
    (hi : resp.instruments = some instrs) :
    (fetch_job ps source isInit today api false).outcome = .ok () ∧
    rowsFor (fetch_job ps source isInit today api false).state.model.store today
      = [(today, transform_response instrs)] ∧
    (fetch_job ps source isInit today api false).state.model.cacheValid = false ∧
    (fetch_job ps source isInit today api false).storeEvents
      = [.dbWrite today (transform_response instrs), .cacheClear] ∧
    (fetch_job ps source isInit today api true).state.model = ps.model ∧
    (fetch_job ps source isInit today api true).storeEvents = [.dbRollback] := by
  have hcred : ¬(ps.model.account_id = "" ∨ ps.model.api_key = "") := by
    simp [h1, h2]
  rcases hsrc with hs | hs <;> subst hs <;>
    refine ⟨?_, ?_, ?_, ?_, ?_, ?_⟩ <;>
      simp [fetch_job, hc, fetch_and_save_rates, if_neg hcred, hr, hi] <;>
        exact rowsFor_upsert _ _ _ hwf

theorem scheduled_job_persists_today_witness :
    (fetch_job ⟨⟨[], true, "acct", "key"⟩, false⟩ "scheduled" false
        "2024-01-01" (fun _ => .ok ⟨some []⟩) false).outcome = .ok () ∧
    rowsFor (fetch_job ⟨⟨[], true, "acct", "key"⟩, false⟩ "scheduled" false
        "2024-01-01" (fun _ => .ok ⟨some []⟩) false).state.model.store
        "2024-01-01"
      = [("2024-01-01", transform_response [])] ∧
    (fetch_job ⟨⟨[], true, "acct", "key"⟩, false⟩ "scheduled" false
        "2024-01-01" (fun _ => .ok ⟨some []⟩) false).state.model.cacheValid
      = false ∧
    (fetch_job ⟨⟨[], true, "acct", "key"⟩, false⟩ "scheduled" false
        "2024-01-01" (fun _ => .ok ⟨some []⟩) false).storeEvents
      = [.dbWrite "2024-01-01" (transform_response []), .cacheClear] ∧
    (fetch_job ⟨⟨[], true, "acct", "key"⟩, false⟩ "scheduled" false
        "2024-01-01" (fun _ => .ok ⟨some []⟩) true).state.model
      = ⟨[], true, "acct", "key"⟩ ∧
    (fetch_job ⟨⟨[], true, "acct", "key"⟩, false⟩ "scheduled" false
        "2024-01-01" (fun _ => .ok ⟨some []⟩) true).storeEvents
      = [.dbRollback] :=
  scheduled_job_persists_today ⟨⟨[], true, "acct", "key"⟩, false⟩ "2024-01-01"
    (fun _ => .ok ⟨some []⟩) "scheduled" false ⟨some []⟩ []
    (Or.inl rfl) rfl (by decide) (by decide) (by decide) rfl rfl

/-- **C5**: a manual update job never changes the rate store, whatever its
outcome (same rows, same row count for today, no `dbWrite` event); if its
fetch succeeds, the fetched payload is delivered as a `data` message on the
UI queue, not persisted. -/
theorem manual_job_leaves_store_unchanged (ps : PresenterState)
    (today : String) (api : Nat → Except TransportErr ApiResponse)
    (dbFail : Bool) :
    (fetch_job ps "manual" false today api dbFail).state.model.store
      = ps.model.store ∧
    countDate (fetch_job ps "manual" false today api dbFail).state.model.store
        today
      = countDate ps.model.store today ∧
    (fetch_job ps "manual" false today api dbFail).storeEvents = [] ∧
    (ps.cancelFlag = false →
      ∀ p, (fetch_and_save_rates ps.model today api dbFail false).outcome
          = .ok (some p) →
        UIMsg.dataMsg p ∈ (fetch_job ps "manual" false today api dbFail).msgs) := by
  obtain ⟨hst, hev⟩ := fetch_save_false_inv ps.model today api dbFail
  by_cases hc : ps.cancelFlag
  · refine ⟨?_, ?_, ?_, ?_⟩ <;> simp [fetch_job, hc]
  · have hflag : ps.cancelFlag = false := by simpa using hc
    cases ho : (fetch_and_save_rates ps.model today api dbFail false).outcome with
    | error e =>
        refine ⟨?_, ?_, ?_, ?_⟩ <;> simp [fetch_job, hflag, ho, hst, hev]
    | ok v =>
        cases v with
        | none =>
            refine ⟨?_, ?_, ?_, ?_⟩ <;> simp [fetch_job, hflag, ho, hst, hev]
        | some p =>
            refine ⟨?_, ?_, ?_, ?_⟩ <;> simp [fetch_job, hflag, ho, hst, hev]

theorem manual_job_leaves_store_unchanged_witness :
    (fetch_job ⟨⟨[], true, "acct", "key"⟩, false⟩ "manual" false "2024-01-01"
        (fun _ => .ok ⟨some []⟩) false).state.model.store = [] ∧
    countDate (fetch_job ⟨⟨[], true, "acct", "key"⟩, false⟩ "manual" false
        "2024-01-01" (fun _ => .ok ⟨some []⟩) false).state.model.store
        "2024-01-01"
      = countDate [] "2024-01-01" ∧
    (fetch_job ⟨⟨[], true, "acct", "key"⟩, false⟩ "manual" false "2024-01-01"
        (fun _ => .ok ⟨some []⟩) false).storeEvents = [] ∧
    UIMsg.dataMsg (transform_response [])
      ∈ (fetch_job ⟨⟨[], true, "acct", "key"⟩, false⟩ "manual" false
          "2024-01-01" (fun _ => .ok ⟨some []⟩) false).msgs := by
  have h := manual_job_leaves_store_unchanged
    ⟨⟨[], true, "acct", "key"⟩, false⟩ "2024-01-01"
    (fun _ => .ok ⟨some []⟩) false
  exact ⟨h.1, h.2.1, h.2.2.1, h.2.2.2 rfl (transform_response []) rfl⟩

/-- **C7**: a manual job that observes the cancellation flag at entry posts
exactly the `"Update cancelled."` error status plus `hide_progress` and
`set_buttons_enabled(True)`, makes zero network calls, writes nothing, and
returns (clearing the flag). -/
theorem manual_job_cancelled_at_entry (ps : PresenterState) (today : String)
    (api : Nat → Except TransportErr ApiResponse) (dbFail : Bool)
    (h : ps.cancelFlag = true) :
    (fetch_job ps "manual" false today api dbFail).msgs
      = [.status "Update cancelled." true, .hideProgress,
         .setButtonsEnabled true] ∧
    (fetch_job ps "manual" false today api dbFail).apiCalls = 0 ∧
    (fetch_job ps "manual" false today api dbFail).sleeps = [] ∧
    (fetch_job ps "manual" false today api dbFail).storeEvents = [] ∧
    (fetch_job ps "manual" false today api dbFail).state.model = ps.model ∧
    (fetch_job ps "manual" false today api dbFail).state.cancelFlag = false ∧
    (fetch_job ps "manual" false today api dbFail).outcome = .ok () := by
  refine ⟨?_, ?_, ?_, ?_, ?_, ?_, ?_⟩ <;> simp [fetch_job, h]

theorem manual_job_cancelled_at_entry_witness :
    (fetch_job ⟨⟨[], true, "acct", "key"⟩, true⟩ "manual" false "2024-01-01"
        (fun _ => .ok ⟨some []⟩) false).msgs
      = [.status "Update cancelled." true, .hideProgress,
         .setButtonsEnabled true] ∧
    (fetch_job ⟨⟨[], true, "acct", "key"⟩, true⟩ "manual" false "2024-01-01"
        (fun _ => .ok ⟨some []⟩) false).apiCalls = 0 ∧
    (fetch_job ⟨⟨[], true, "acct", "key"⟩, true⟩ "manual" false "2024-01-01"
        (fun _ => .ok ⟨some []⟩) false).sleeps = [] ∧
    (fetch_job ⟨⟨[], true, "acct", "key"⟩, true⟩ "manual" false "2024-01-01"
        (fun _ => .ok ⟨some []⟩) false).storeEvents = [] ∧
    (fetch_job ⟨⟨[], true, "acct", "key"⟩, true⟩ "manual" false "2024-01-01"
        (fun _ => .ok ⟨some []⟩) false).state.model
      = ⟨[], true, "acct", "key"⟩ ∧
    (fetch_job ⟨⟨[], true, "acct", "key"⟩, true⟩ "manual" false "2024-01-01"
        (fun _ => .ok ⟨some []⟩) false).state.cancelFlag = false ∧
    (fetch_job ⟨⟨[], true, "acct", "key"⟩, true⟩ "manual" false "2024-01-01"
        (fun _ => .ok ⟨some []⟩) false).outcome = .ok () :=
  manual_job_cancelled_at_entry ⟨⟨[], true, "acct", "key"⟩, true⟩ "2024-01-01"
    (fun _ => .ok ⟨some []⟩) false rfl

/-- Recognizer for `status` messages. -/
def isStatusMsg : UIMsg → Bool
  | .status _ _ => true
  | _ => false

/-- **C1 counterexample**: with empty credentials and no pending
cancellation, the manual fetch job lets the credentials `ValueError` escape
its body and posts no message at all — in particular no status, no
`hide_progress` and no `set_buttons_enabled(True)`. -/
theorem fetch_job_missing_creds_escapes :
    (fetch_job ⟨⟨[], true, "", ""⟩, false⟩ "manual" false "2024-01-01"
        (fun _ => .ok ⟨some []⟩) false).outcome = .error .valueError ∧
    (fetch_job ⟨⟨[], true, "", ""⟩, false⟩ "manual" false "2024-01-01"
        (fun _ => .ok ⟨some []⟩) false).msgs = [] :=
  ⟨rfl, rfl⟩

/-- **C1 (amended)**: for every fetch job (manual, scheduled, or
initial-fallback) whose entry either observes a pending cancellation or
finds non-empty credentials, the job returns without an escaping exception
and posts exactly one status message — except the initial-fallback path,
which posts one extra preliminary `"No local data. ..."` status — plus
exactly one `hide_progress` and one `set_buttons_enabled(True)`, for every
outcome (success, transport failure after exhausted retries, validation
failure, storage failure, cancellation). With empty credentials and no
pending cancellation the `ValueError` escapes the job body instead (see
the counterexample). -/
theorem fetch_job_posts_completion_msgs (ps : PresenterState) (today : String)
    (api : Nat → Except TransportErr ApiResponse) (dbFail : Bool)
    (source : String) (isInit : Bool)
    (hsrc : (source, isInit) = ("manual", false) ∨
            (source, isInit) = ("scheduled", false) ∨
            (source, isInit) = ("initial", true))
    (hready : ps.cancelFlag = true ∨
              (ps.model.account_id ≠ "" ∧ ps.model.api_key ≠ "")) :
    (fetch_job ps source isInit today api dbFail).outcome = .ok () ∧
    ((fetch_job ps source isInit today api dbFail).msgs.filter
        isStatusMsg).length
      = (if ps.cancelFlag then 1 else if isInit then 2 else 1) ∧
    ((fetch_job ps source isInit today api dbFail).msgs.filter
        (fun m => m = .hideProgress)).length = 1 ∧
    ((fetch_job ps source isInit today api dbFail).msgs.filter
        (fun m => m = .setButtonsEnabled true)).length = 1 := by
  by_cases hc : ps.cancelFlag = true
  · refine ⟨?_, ?_, ?_, ?_⟩ <;> simp [fetch_job, hc, isStatusMsg]
  · have hflag : ps.cancelFlag = false := by simpa using hc
    obtain ⟨h1, h2⟩ : ps.model.account_id ≠ "" ∧ ps.model.api_key ≠ "" := by
      rcases hready with h | h
      · exact absurd h hc
      · exact h
    rcases hsrc with hs | hs | hs <;>
      (rw [Prod.mk.injEq] at hs; obtain ⟨rfl, rfl⟩ := hs)
    · obtain ⟨v, hv⟩ := fetch_ok_of_creds ps.model today api dbFail false h1 h2
      cases v with
      | none =>
          refine ⟨?_, ?_, ?_, ?_⟩ <;> simp [fetch_job, hflag, hv, isStatusMsg]
      | some p =>
          refine ⟨?_, ?_, ?_, ?_⟩ <;> simp [fetch_job, hflag, hv, isStatusMsg]
    · obtain ⟨v, hv⟩ := fetch_ok_of_creds ps.model today api dbFail true h1 h2
      cases v with
      | none =>
          refine ⟨?_, ?_, ?_, ?_⟩ <;> simp [fetch_job, hflag, hv, isStatusMsg]
      | some p =>
          refine ⟨?_, ?_, ?_, ?_⟩ <;> simp [fetch_job, hflag, hv, isStatusMsg]
    · obtain ⟨v, hv⟩ := fetch_ok_of_creds ps.model today api dbFail true h1 h2
      cases v with
      | none =>
          refine ⟨?_, ?_, ?_, ?_⟩ <;> simp [fetch_job, hflag, hv, isStatusMsg]
      | some p =>
          refine ⟨?_, ?_, ?_, ?_⟩ <;> simp [fetch_job, hflag, hv, isStatusMsg]

theorem fetch_job_posts_completion_msgs_witness :
    (fetch_job ⟨⟨[], true, "acct", "key"⟩, false⟩ "initial" true "2024-01-01"
        (fun _ => .ok ⟨some []⟩) false).outcome = .ok () ∧
    ((fetch_job ⟨⟨[], true, "acct", "key"⟩, false⟩ "initial" true "2024-01-01"
        (fun _ => .ok ⟨some []⟩) false).msgs.filter isStatusMsg).length = 2 ∧
    ((fetch_job ⟨⟨[], true, "acct", "key"⟩, false⟩ "initial" true "2024-01-01"
        (fun _ => .ok ⟨some []⟩) false).msgs.filter
        (fun m => m = .hideProgress)).length = 1 ∧
    ((fetch_job ⟨⟨[], true, "acct", "key"⟩, false⟩ "initial" true "2024-01-01"
        (fun _ => .ok ⟨some []⟩) false).msgs.filter
        (fun m => m = .setButtonsEnabled true)).length = 1 := by
  have h := fetch_job_posts_completion_msgs ⟨⟨[], true, "acct", "key"⟩, false⟩
    "2024-01-01" (fun _ => .ok ⟨some []⟩) false "initial" true
    (Or.inr (Or.inr rfl)) (Or.inr ⟨by decide, by decide⟩)
  simpa using h

/-! ## C8: the dispatcher drains the queue exhaustively -/

theorem drainGo_applied_decomp (display : Payload → List (List String))
    (today : String) :
    ∀ n q ds, queueWeight q ≤ n →
      ∃ extra, (drainGo display today q ds).1 = q ++ extra := by
  intro n
  induction n with
  | zero =>
      intro q ds hq
      cases q with
      | nil => exact ⟨[], by simp [drainGo]⟩
      | cons m q' =>
          exfalso
          have h1 : 1 ≤ msgWeight m := by cases m <;> simp [msgWeight]
          have h2 := queueWeight_cons m q'
          omega
  | succ n ih =>
      intro q ds hq
      cases q with
      | nil => exact ⟨[], by simp [drainGo]⟩
      | cons m q' =>
          have hlt := handleMsg_emit_weight display today ds m
          have hle : queueWeight (q' ++ (handleMsg display today ds m).2) ≤ n := by
            rw [queueWeight_append]
            rw [queueWeight_cons] at hq
            omega
          obtain ⟨extra, hex⟩ := ih (q' ++ (handleMsg display today ds m).2)
            (handleMsg display today ds m).1 hle
          refine ⟨(handleMsg display today ds m).2 ++ extra, ?_⟩
          simp only [drainGo]
          rw [hex]
          simp

/-- **C8**: invoked on a queue snapshot `q` with no concurrent producer,
one call of the dispatch routine dequeues and applies all messages of `q`
in FIFO order, each exactly once, before returning: the applied sequence is
exactly `q` followed by the messages the handlers themselves enqueued while
draining. -/
theorem dispatcher_drains_exhaustively (display : Payload → List (List String))
    (today : String) (q : List UIMsg) (ds : DispState) :
    ∃ extra, (process_ui_updates display today q ds).1 = q ++ extra :=
  drainGo_applied_decomp display today (queueWeight q) q ds le_rfl

/-! ## C10: the manual handler clears the cancellation flag -/

theorem runFlagEvents_false_of_no_cancel (evs : List FlagEvent)
    (h : ∀ e ∈ evs,
      e ≠ FlagEvent.cancelRequest ∧ e ≠ FlagEvent.shutdownRequest) :
    runFlagEvents false evs = false := by
  induction evs with
  | nil => rfl
  | cons e rest ih =>
      obtain ⟨h1, h2⟩ := h e (List.mem_cons_self _ _)
      have hrest := fun e' he' => h e' (List.mem_cons_of_mem _ he')
      cases e with
      | cancelRequest => exact absurd rfl h1
      | shutdownRequest => exact absurd rfl h2
      | manualRequest =>
          simpa [runFlagEvents, applyFlagEvent] using ih hrest
      | plainEvent =>
          simpa [runFlagEvents, applyFlagEvent] using ih hrest

theorem exists_cancel_of_runFlagEvents_true (evs : List FlagEvent) :
    runFlagEvents false evs = true →
    ∃ e ∈ evs,
      e = FlagEvent.cancelRequest ∨ e = FlagEvent.shutdownRequest := by
  induction evs with
  | nil => intro h; simp [runFlagEvents] at h
  | cons e rest ih =>
      intro h
      cases e with
      | cancelRequest => exact ⟨_, List.mem_cons_self _ _, Or.inl rfl⟩
      | shutdownRequest => exact ⟨_, List.mem_cons_self _ _, Or.inr rfl⟩
      | manualRequest =>
          obtain ⟨e', he', hc⟩ :=
            ih (by simpa [runFlagEvents, applyFlagEvent] using h)
          exact ⟨e', List.mem_cons_of_mem _ he', hc⟩
      | plainEvent =>
          obtain ⟨e', he', hc⟩ :=
            ih (by simpa [runFlagEvents, applyFlagEvent] using h)
          exact ⟨e', List.mem_cons_of_mem _ he', hc⟩

theorem fetch_job_not_cancelled_msgs (st : ModelState) (today : String)
    (api : Nat → Except TransportErr ApiResponse) (dbFail : Bool) :
    UIMsg.status "Update cancelled." true ∉
      (fetch_job ⟨st, false⟩ "manual" false today api dbFail).msgs := by
  cases ho : (fetch_and_save_rates st today api dbFail false).outcome with
  | error e => simp [fetch_job, ho]
  | ok v => cases v <;> simp [fetch_job, ho]

/-- **C10**: `on_manual_update` clears the shared cancellation flag before
submitting the fetch job, so a cancellation requested before the button
press is never observed by the job that press triggers: unless a
cancellation (or shutdown) request occurs between submission and job start,
the flag is still clear at job entry and the job does not take the
cancelled-at-entry branch; conversely the flag can only be set at job entry
if such a request occurred in between. -/
theorem manual_update_clears_cancel_flag (ps : PresenterState)
    (evs : List FlagEvent) (st : ModelState) (today : String)
    (api : Nat → Except TransportErr ApiResponse) (dbFail : Bool) :
    (on_manual_update ps).1.cancelFlag = false ∧
    ((∀ e ∈ evs,
        e ≠ FlagEvent.cancelRequest ∧ e ≠ FlagEvent.shutdownRequest) →
      runFlagEvents (on_manual_update ps).1.cancelFlag evs = false ∧
      UIMsg.status "Update cancelled." true ∉
        (fetch_job ⟨st, runFlagEvents (on_manual_update ps).1.cancelFlag evs⟩
            "manual" false today api dbFail).msgs) ∧
    (runFlagEvents false evs = true →
      ∃ e ∈ evs,
        e = FlagEvent.cancelRequest ∨ e = FlagEvent.shutdownRequest) := by
  refine ⟨rfl, fun h => ?_, exists_cancel_of_runFlagEvents_true evs⟩
  have hf : runFlagEvents (on_manual_update ps).1.cancelFlag evs = false :=
    runFlagEvents_false_of_no_cancel evs h
  refine ⟨hf, ?_⟩
  rw [hf]
  exact fetch_job_not_cancelled_msgs st today api dbFail

theorem manual_update_clears_cancel_flag_witness :
    (on_manual_update ⟨⟨[], true, "acct", "key"⟩, true⟩).1.cancelFlag
      = false ∧
    (runFlagEvents
        (on_manual_update ⟨⟨[], true, "acct", "key"⟩, true⟩).1.cancelFlag
        [FlagEvent.plainEvent] = false ∧
      UIMsg.status "Update cancelled." true ∉
        (fetch_job ⟨⟨[], true, "acct", "key"⟩,
            runFlagEvents
              (on_manual_update ⟨⟨[], true, "acct", "key"⟩, true⟩).1.cancelFlag
              [FlagEvent.plainEvent]⟩
            "manual" false "2024-01-01" (fun _ => .ok ⟨some []⟩) false).msgs) ∧
    (∃ e ∈ [FlagEvent.cancelRequest],
      e = FlagEvent.cancelRequest ∨ e = FlagEvent.shutdownRequest) := by
  have h := manual_update_clears_cancel_flag ⟨⟨[], true, "acct", "key"⟩, true⟩
    [FlagEvent.plainEvent] ⟨[], true, "acct", "key"⟩ "2024-01-01"
    (fun _ => .ok ⟨some []⟩) false
  have h' := manual_update_clears_cancel_flag ⟨⟨[], true, "acct", "key"⟩, true⟩
    [FlagEvent.cancelRequest] ⟨[], true, "acct", "key"⟩ "2024-01-01"
    (fun _ => .ok ⟨some []⟩) false
  exact ⟨h.1, h.2.1 (by decide), h'.2.2 (by decide)⟩

/-- **C9**: instrument classification is a pure function of the name and
the configured category tables, with the five specified values. -/
theorem classification_deterministic :
    categorize_instrument "EUR_USD" = "Forex" ∧
    categorize_instrument "XAU_USD" = "Metals" ∧
    categorize_instrument "DE10YB_EUR" = "Bonds" ∧
    categorize_instrument "FOO_CFD" = "CFDs" ∧
    categorize_instrument "ZZZ_UNKNOWN" = "Other" :=
  ⟨by decide, by decide, by decide, by decide, by decide⟩

end OandaRates
